import Mathlib

/-!
Shallow embedding of the conversation turn controller of
src/components/PropertyManagerChat.tsx (the Propertius property-management
chat), together with theorems checking the specification claims about it.

The controller (`handleSendMessage`) drives one user turn: append the user
turn, call the Gemini model, optionally execute one `search_purchase_orders`
round-trip against the ERP search collaborator, call the model a second time
with the tool result, and append the final model turn. External collaborators
(model client, ERP search, telemetry sink) are driven by an `Env` oracle
recording one outcome per call site; the embedding returns the appended
turns, telemetry writes, and the requests issued to each collaborator.
-/

set_option maxHeartbeats 4000000

namespace Propertius

/-- Role of a conversation turn (`Message.role`, PropertyManagerChat.tsx:73). -/
inductive Role where
  | user
  | model
deriving Repr, DecidableEq

/-- Sparse search criteria produced by the model for `search_purchase_orders`
(parameter schema of `searchERPFunction`, PropertyManagerChat.tsx:30-54).
All fields optional; the controller passes them through unvalidated. -/
structure SearchCriteria where
  supplierName : Option String := none
  productDescription : Option String := none
  dateFrom : Option String := none
  dateTo : Option String := none
  buyerName : Option String := none
deriving Repr, DecidableEq

/-- An ERP record is treated as an opaque field mapping. -/
abbrev ErpRecord := List (String × String)

/-- Result of `erpApiService.searchRecords` (used at PropertyManagerChat.tsx:314). -/
structure SearchResult where
  records : List ErpRecord
  totalCount : Nat
  processingTimeMs : Nat
deriving Repr, DecidableEq

/-- A function-call fragment in a model response part (`part.functionCall`). -/
structure FunctionCall where
  name : String
  args : SearchCriteria
deriving Repr, DecidableEq

/-- Payload of the synthetic function-response part the controller builds
(PropertyManagerChat.tsx:347-360). -/
structure FunctionResponsePayload where
  name : String
  instruction : String
  records : List ErpRecord
  totalCount : Nat
  processingTimeMs : Nat
deriving Repr, DecidableEq

/-- A content part: plain text, a function call, or a function response.
Mirrors the SDK `Part` type as the source probes it (optional fields). -/
structure Part where
  text : Option String := none
  functionCall : Option FunctionCall := none
  functionResponse : Option FunctionResponsePayload := none
deriving Repr, DecidableEq

/-- Citation source attached to a model candidate (PropertyManagerChat.tsx:65-70). -/
structure CitationSource where
  startIndex : Option Nat := none
  endIndex : Option Nat := none
  uri : Option String := none
  title : Option String := none
deriving Repr, DecidableEq

/-- Citation metadata; the source probes `citationMetadata.citationSources`
for presence (PropertyManagerChat.tsx:437), so the list is optional here. -/
structure CitationMetadata where
  citationSources : Option (List CitationSource) := none
deriving Repr, DecidableEq

/-- One visible conversation turn (PropertyManagerChat.tsx:72-78). -/
structure Message where
  role : Role
  parts : List Part
  citationMetadata : Option CitationMetadata := none
deriving Repr, DecidableEq

/-- Candidate content; `content?.parts` is probed optionally (line 283, 442). -/
structure Content where
  parts : Option (List Part) := none
deriving Repr, DecidableEq

/-- One candidate of a model response. -/
structure Candidate where
  content : Option Content := none
  citationMetadata : Option CitationMetadata := none
deriving Repr, DecidableEq

/-- Model response body; `response.candidates` probed at lines 278, 375. -/
structure GenerateContentResponse where
  candidates : Option (List Candidate) := none
deriving Repr, DecidableEq

/-- Result of `model.generateContent`; `result.response` probed at line 277. -/
structure GenerateContentResult where
  response : Option GenerateContentResponse := none
deriving Repr, DecidableEq

/-- A tool (function) declaration attached to a model request. -/
structure FunctionDeclaration where
  name : String
  description : String
  parameterNames : List String
deriving Repr, DecidableEq

/-- Embedding of `searchERPFunction` (PropertyManagerChat.tsx:27-55): the one
tool schema the chat declares to the model. -/
def searchERPFunction : FunctionDeclaration :=
  { name := "search_purchase_orders"
  , description := "Search and DISPLAY purchase order data for property management. ALWAYS show the actual data found to the user in a clear, formatted way. Include specific details like supplier names, products, prices, dates, and quantities from the results."
  , parameterNames := ["supplierName", "productDescription", "dateFrom", "dateTo", "buyerName"] }

/-- A role-tagged outbound turn inside a model request (`{ role, parts }`). -/
structure ContentTurn where
  role : Role
  parts : List Part
deriving Repr, DecidableEq

/-- One request issued through `model.generateContent`: the outbound contents
plus the tool declarations in effect for the request. -/
structure ModelRequest where
  contents : List ContentTurn
  tools : List FunctionDeclaration
deriving Repr, DecidableEq

/-- Default model name (`VITE_GEMINI_MODEL` fallback, PropertyManagerChat.tsx:24). -/
def geminiModel : String := "gemini-2.5-pro-preview-03-25"

/-- Configuration of the model handle built at PropertyManagerChat.tsx:260-266. -/
structure GenerativeModelConfig where
  model : String
  tools : List FunctionDeclaration
deriving Repr, DecidableEq

/-- The model handle from `genAI.getGenerativeModel` (lines 260-266). Per the
SDK, parameters given at construction (including `tools`) apply to every
`generateContent` request issued through the handle unless overridden per
request; both calls of the controller (lines 269, 364) use this handle and
pass only `contents`. The float `temperature: 0.2` is omitted (irrelevant to
all claims). -/
def chatModel : GenerativeModelConfig :=
  { model := geminiModel, tools := [searchERPFunction] }

/-- A `model.generateContent(\x7b contents \x7d)` call through `chatModel`:
the request carries the handle-level tool declarations. -/
def generateContentRequest (contents : List ContentTurn) : ModelRequest :=
  { contents := contents, tools := chatModel.tools }

/-- Telemetry events written through `addTechnicalLog`, with the payload
fields the controller sends (lines 228, 304, 332, 389/444, 415). -/
inductive TelemetryEvent where
  | userMessage (text : String)
  | functionCallTriggered (text : String) (functionName : String)
      (functionInputs : SearchCriteria) (aiRequestId : String)
  | functionCallSuccess (functionName : String) (functionInputs : SearchCriteria)
      (totalRecords : Nat) (processingTimeMs : Nat) (hasData : Bool)
      (recordsPreview : List ErpRecord) (aiRequestId : String)
  | functionCallError (functionName : String) (functionInputs : SearchCriteria)
      (errorMessage : String) (aiRequestId : String)
  | aiResponse (text : String) (aiRequestId : Option String)
deriving Repr, DecidableEq

/-- Recognizer for `function_call_error` telemetry events. -/
def TelemetryEvent.isFunctionCallError : TelemetryEvent → Bool
  | .functionCallError _ _ _ _ => true
  | _ => false

/-- Session context from `sessionService.initializeChatSession`
(system prompt plus knowledge text; PropertyManagerChat.tsx:135-136). -/
structure ChatSession where
  fullContext : String
  documentsUsed : List String := []
deriving Repr, DecidableEq

/-- The component state the controller reads and writes: React `useState`
cells of PropertyManagerChat (lines 101-115). `ciSessionId` is the
continuous-improvement telemetry session id. -/
structure ChatState where
  messages : List Message
  input : String
  isLoading : Bool
  chatSession : Option ChatSession
  ciSessionId : Option String
  userUid : String
deriving Repr, DecidableEq

/-- Decidable equality for `Except`, needed to evaluate concrete runs. -/
instance {ε α : Type} [DecidableEq ε] [DecidableEq α] : DecidableEq (Except ε α) := fun x y =>
  match x, y with
  | Except.ok a, Except.ok b =>
    if h : a = b then Decidable.isTrue (congrArg Except.ok h)
    else Decidable.isFalse (fun he => h (Except.ok.inj he))
  | Except.error e, Except.error f =>
    if h : e = f then Decidable.isTrue (congrArg Except.error h)
    else Decidable.isFalse (fun he => h (Except.error.inj he))
  | Except.ok _, Except.error _ => Decidable.isFalse (fun he => Except.noConfusion he)
  | Except.error _, Except.ok _ => Decidable.isFalse (fun he => Except.noConfusion he)

/-- Oracle for one controller call: the outcome of each collaborator call
site. `Except.error` means the awaited promise rejected. `telemetryFails`
lists which successive telemetry write attempts fail inside the sink. -/
structure Env where
  ciSession : Except Unit String
  latestPrompt : Except Unit (Option String)
  firstModel : Except Unit GenerateContentResult
  aiRequestId : String
  search : Except String SearchResult
  followUp : Except Unit GenerateContentResult
  telemetryFails : List Bool
deriving Repr, DecidableEq

/-- Everything one controller call produces: turns appended to visible
history (in order), telemetry events persisted by the sink, requests issued
to the model and search collaborators, and the final values of the state
cells the controller writes. -/
structure TurnResult where
  appends : List Message
  telemetry : List TelemetryEvent
  modelRequests : List ModelRequest
  searchRequests : List SearchCriteria
  inputAfter : String
  isLoadingAfter : Bool
  ciSessionIdAfter : Option String
deriving Repr, DecidableEq

/-- JavaScript WhiteSpace and LineTerminator characters (those stripped by
`String.prototype.trim`). -/
def jsWhitespace (c : Char) : Bool :=
  c == ' ' || c == '\t' || c == '\n' || c == '\r' ||
  c == '\x0b' || c == '\x0c' || c.toNat == 0xA0 || c.toNat == 0xFEFF ||
  c.toNat == 0x1680 || (0x2000 ≤ c.toNat && c.toNat ≤ 0x200A) ||
  c.toNat == 0x2028 || c.toNat == 0x2029 || c.toNat == 0x202F ||
  c.toNat == 0x205F || c.toNat == 0x3000

/-- Embedding of `textToSend.trim()` (JavaScript trim). -/
def jsTrim (s : String) : String :=
  (((s.toList.dropWhile jsWhitespace).reverse.dropWhile jsWhitespace).reverse).asString

/-- JavaScript `x?.y || fallback` on an optional string: empty strings are
falsy, so they also fall back. -/
def jsOr (o : Option String) (fallback : String) : String :=
  match o with
  | some t => if t == "" then fallback else t
  | none => fallback

/-- Bounded prefix used when logging response text
(`aiResponseText.substring(0, 500)`, lines 391, 446). -/
def take500 (s : String) : String := s.take 500

/-- Embedding of `const textToSend = messageText || input` (line 213):
JavaScript `||` falls through when `messageText` is absent or empty. -/
def resolveMessageText (messageText : Option String) (input : String) : String :=
  match messageText with
  | some t => if t == "" then input else t
  | none => input

/-- Truthiness of the optional `messageText` argument (lines 213, 223). -/
def messageTextTruthy (messageText : Option String) : Bool :=
  match messageText with
  | some t => t != ""
  | none => false

/-- Builds a plain text part. -/
def textPart (t : String) : Part := { text := some t }

/-- The user turn appended optimistically at line 221-222. -/
def mkUserMessage (textToSend : String) : Message :=
  { role := Role.user, parts := [textPart textToSend] }

/-- The generic model turn appended by the outer catch handler
(PropertyManagerChat.tsx:458-463). -/
def genericErrorMessage : Message :=
  { role := Role.model
  , parts := [textPart ("Error processing your request. Please try again.")] }

/-- The system-context turn sent first in every outbound sequence (line 271). -/
def systemTurn (systemPrompt : String) : ContentTurn :=
  { role := Role.user, parts := [textPart systemPrompt] }

/-- The outbound copy of the new user turn (lines 273, 368). -/
def userTurn (textToSend : String) : ContentTurn :=
  { role := Role.user, parts := [textPart textToSend] }

/-- The explicit instruction embedded in the synthetic function response
(PropertyManagerChat.tsx:353). -/
def presentationInstruction : String :=
  "IMPORTANT: Present this data to the user in a clear, formatted way. Show specific details from each record including supplier names, products, prices, and dates. Do not just say you are \x27checking\x27 - show the actual results found."

/-- The synthetic function-response part built at lines 347-360. -/
def functionResponsePart (functionName : String) (res : SearchResult) : Part :=
  { functionResponse := some
      { name := functionName
      , instruction := presentationInstruction
      , records := res.records
      , totalCount := res.totalCount
      , processingTimeMs := res.processingTimeMs } }

/-- The function-call scan of lines 283-433: walk the candidate parts in
order; a part with a `functionCall` naming `search_purchase_orders` is
handled (and the loop exits); a function call with any other name is skipped
and the loop continues. -/
def findRecognizedCall : List Part → Option (Part × FunctionCall)
  | [] => none
  | p :: rest =>
    match p.functionCall with
    | some fc =>
      if fc.name == searchERPFunction.name then some (p, fc)
      else findRecognizedCall rest
    | none => findRecognizedCall rest

/-- Modelled from the spec: `addTechnicalLog` (src/lib/firestoreService) is
not part of src/. Per the spec, telemetry writes are best-effort: a failing
write produces at most a console diagnostic and is dropped; the call never
raises to the controller. This function runs the attempted writes in order
against the failure flags, returning the events actually persisted. -/
def persistEvents : List Bool → List TelemetryEvent → List TelemetryEvent
  | _, [] => []
  | [], ev :: rest => ev :: persistEvents [] rest
  | f :: fs, ev :: rest => (if f then [] else [ev]) ++ persistEvents fs rest

/-- Resolution of `systemPrompt` (PropertyManagerChat.tsx:236-258): use the
session context when present; otherwise try `loadLatestPrompt` (a rejection
is caught and logged at 249-251); if the prompt is still empty, throw the
configuration error of line 256. -/
def resolvePrompt (chatSession : Option ChatSession)
    (latestPrompt : Except Unit (Option String)) : Except Unit String :=
  match chatSession with
  | some cs => Except.ok cs.fullContext
  | none =>
    match latestPrompt with
    | Except.ok (some p) => if p == "" then Except.error () else Except.ok p
    | Except.ok none => Except.error ()
    | Except.error _ => Except.error ()

/-- Output of the `try` body of `handleSendMessage` (lines 234-466): the
model turns appended after the user turn (including the generic turn the
outer catch appends when the body throws), the telemetry write attempts in
order, and the requests issued. -/
structure PathOut where
  newAppends : List Message
  attempts : List TelemetryEvent
  modelRequests : List ModelRequest
  searchRequests : List SearchCriteria
deriving Repr, DecidableEq

/-- The plain-response path (PropertyManagerChat.tsx:436-454): keep citation
metadata when `candidate.citationMetadata.citationSources` is present, log an
`ai_response` event with the bounded text of the first part, and append the
candidate parts (or the fixed fallback when `content?.parts` is absent). -/
def plainOut (candidate : Candidate) (ciGuard : Bool) : PathOut :=
  let contentParts : Option (List Part) := candidate.content.bind Content.parts
  let processedCitationMetadata : Option CitationMetadata :=
    match candidate.citationMetadata with
    | some cm =>
      match cm.citationSources with
      | some _ => some cm
      | none => none
    | none => none
  let aiResponseText :=
    jsOr ((contentParts.bind List.head?).bind Part.text) ("No response text")
  { newAppends :=
      [{ role := Role.model
       , parts :=
           match contentParts with
           | some ps => ps
           | none => [textPart ("I couldn\x27t generate a response.")]
       , citationMetadata := processedCitationMetadata }]
  , attempts :=
      if ciGuard then [TelemetryEvent.aiResponse (take500 aiResponseText) none] else []
  , modelRequests := []
  , searchRequests := [] }

/-- The recognized-function-call round-trip (PropertyManagerChat.tsx:289-430).
On search success it issues the follow-up model call with the original
function-call turn and the synthetic function-response turn appended; the
follow-up turn is appended only when the follow-up response carries candidate
content (the guard at line 375 has no else branch: otherwise the controller
returns at line 401 without appending anything). On search failure control
enters the catch block at line 402 whose first statement reads `aiRequestId`
— a `const` declared inside the `try` block at line 291 and therefore out of
scope in the catch — so a ReferenceError is raised before the
`function_call_error` write (415) and the "encountered an error" append (425)
can run, and the outer handler (458-463) appends the generic error turn. -/
def roundTrip (systemPrompt : String) (outboundHistory : List ContentTurn)
    (textToSend : String) (p : Part) (fc : FunctionCall) (ciGuard : Bool)
    (aiRequestId : String) (search : Except String SearchResult)
    (followUp : Except Unit GenerateContentResult) (req1 : ModelRequest) : PathOut :=
  let attempts0 :=
    if ciGuard then
      [TelemetryEvent.functionCallTriggered textToSend fc.name fc.args aiRequestId]
    else []
  match search with
  | Except.error _ =>
    { newAppends := [genericErrorMessage]
    , attempts := attempts0
    , modelRequests := [req1]
    , searchRequests := [fc.args] }
  | Except.ok res =>
    let attempts1 := attempts0 ++
      (if ciGuard then
        [TelemetryEvent.functionCallSuccess fc.name fc.args res.totalCount
          res.processingTimeMs (decide (0 < res.records.length)) (res.records.take 3)
          aiRequestId]
       else [])
    let functionResponseTurn : ContentTurn :=
      { role := Role.model, parts := [functionResponsePart fc.name res] }
    let req2 := generateContentRequest
      (systemTurn systemPrompt :: (outboundHistory ++
        [userTurn textToSend, { role := Role.model, parts := [p] }, functionResponseTurn]))
    match followUp with
    | Except.error _ =>
      { newAppends := [genericErrorMessage]
      , attempts := attempts1
      , modelRequests := [req1, req2]
      , searchRequests := [fc.args] }
    | Except.ok followUpResult =>
      match ((followUpResult.response.bind GenerateContentResponse.candidates).bind
              List.head?).bind Candidate.content with
      | none =>
        { newAppends := []
        , attempts := attempts1
        , modelRequests := [req1, req2]
        , searchRequests := [fc.args] }
      | some content2 =>
        let aiResponseText :=
          jsOr ((content2.parts.bind List.head?).bind Part.text) ("No response text")
        let attempts2 := attempts1 ++
          (if ciGuard then
            [TelemetryEvent.aiResponse (take500 aiResponseText) (some aiRequestId)]
           else [])
        { newAppends :=
            [{ role := Role.model
             , parts :=
                 match content2.parts with
                 | some ps => ps
                 | none => [textPart ("I executed the search but couldn\x27t format the response.")] }]
        , attempts := attempts2
        , modelRequests := [req1, req2]
        , searchRequests := [fc.args] }

/-- The `try` body of `handleSendMessage` (lines 234-466), with the outer
catch folded in: every internal throw (missing system prompt at 256, model
rejection at 269, empty candidate list at 456, and the rethrown errors of the
tool round-trip) ends with the generic error turn of lines 458-463. -/
def turnBody (messages : List Message) (chatSession : Option ChatSession)
    (textToSend : String) (ciGuard : Bool)
    (latestPrompt : Except Unit (Option String))
    (firstModel : Except Unit GenerateContentResult) (aiRequestId : String)
    (search : Except String SearchResult)
    (followUp : Except Unit GenerateContentResult) : PathOut :=
  match resolvePrompt chatSession latestPrompt with
  | Except.error _ =>
    { newAppends := [genericErrorMessage], attempts := [], modelRequests := [], searchRequests := [] }
  | Except.ok systemPrompt =>
    let outboundHistory := messages.map fun m => ContentTurn.mk m.role m.parts
    let req1 := generateContentRequest
      (systemTurn systemPrompt :: (outboundHistory ++ [userTurn textToSend]))
    match firstModel with
    | Except.error _ =>
      { newAppends := [genericErrorMessage], attempts := [], modelRequests := [req1], searchRequests := [] }
    | Except.ok result =>
      match result.response with
      | none =>
        { newAppends := [genericErrorMessage], attempts := [], modelRequests := [req1], searchRequests := [] }
      | some resp =>
        match resp.candidates with
        | none =>
          { newAppends := [genericErrorMessage], attempts := [], modelRequests := [req1], searchRequests := [] }
        | some [] =>
          { newAppends := [genericErrorMessage], attempts := [], modelRequests := [req1], searchRequests := [] }
        | some (candidate :: _) =>
          match findRecognizedCall ((candidate.content.bind Content.parts).getD []) with
          | some (p, fc) =>
            roundTrip systemPrompt outboundHistory textToSend p fc ciGuard
              aiRequestId search followUp req1
          | none =>
            let po := plainOut candidate ciGuard
            { newAppends := po.newAppends, attempts := po.attempts
            , modelRequests := [req1], searchRequests := [] }

/-- The no-op result of the guard at PropertyManagerChat.tsx:214: nothing is
appended, no collaborator is called, no state cell changes. -/
def noopResult (st : ChatState) : TurnResult :=
  { appends := [], telemetry := [], modelRequests := [], searchRequests := []
  , inputAfter := st.input, isLoadingAfter := st.isLoading
  , ciSessionIdAfter := st.ciSessionId }

/-- Embedding of `handleSendMessage` (PropertyManagerChat.tsx:212-467) for one
completed call.

Notes tying the embedding to the source:
- Guard (214): empty-after-trim text or an in-flight turn is a no-op.
- Continuous-improvement session (217-219, 507-520): created only when
  `continuousImprovementSessionId` is still null; a creation failure is
  caught internally. The telemetry guards at 227, 303, 331, 388 and 443 read
  the `continuousImprovementSessionId` binding captured by this closure, so
  within one call they see the value from before the call (React state
  updates only affect later renders); `ciGuard` models that capture.
- The user turn is appended optimistically (221-222) before any await
  resolves; all `setMessages` calls in the controller are functional appends.
- The outbound history (268) is built from the `messages` closure value,
  which does not yet contain the user turn appended at 222.
- Telemetry write attempts are collected in source order and run through the
  spec-modelled sink `persistEvents` (the sink never raises).
- `finally` (464-466) clears the loading flag on every path. -/
def handleSendMessage (st : ChatState) (env : Env) (messageText : Option String) : TurnResult :=
  let textToSend := resolveMessageText messageText st.input
  if jsTrim textToSend == "" || st.isLoading then noopResult st
  else
    let ciSessionIdAfter :=
      match st.ciSessionId with
      | some sid => some sid
      | none =>
        match env.ciSession with
        | Except.ok sid => some sid
        | Except.error _ => none
    let ciGuard := st.ciSessionId.isSome
    let body := turnBody st.messages st.chatSession textToSend ciGuard
      env.latestPrompt env.firstModel env.aiRequestId env.search env.followUp
    { appends := mkUserMessage textToSend :: body.newAppends
    , telemetry := persistEvents env.telemetryFails
        ((if ciGuard then [TelemetryEvent.userMessage textToSend] else []) ++ body.attempts)
    , modelRequests := body.modelRequests
    , searchRequests := body.searchRequests
    , inputAfter := if messageTextTruthy messageText then st.input else ""
    , isLoadingAfter := false
    , ciSessionIdAfter := ciSessionIdAfter }

/-- Embedding of `handleResetChat` (PropertyManagerChat.tsx:476-496): clear
the messages, session and input, then re-initialize the chat session (a
failure leaves the session cleared). No welcome turn is re-appended here, the
loading flag is not touched, and the in-flight turn (if any) is neither
awaited nor cancelled. -/
def handleResetChat (st : ChatState) (resetSession : Except Unit ChatSession) : ChatState :=
  { st with
    messages := []
  , chatSession :=
      match resetSession with
      | Except.ok s => some s
      | Except.error _ => none
  , input := "" }

/-- Semantics of the functional state update `setMessages(prev => [...prev, m])`
(lines 222, 396, 425, 450, 460): each append lands on the cell value current
at the moment the update runs. -/
def appendFold (cell : List Message) (appends : List Message) : List Message :=
  appends.foldl (fun acc m => acc ++ [m]) cell

/-- The visible history after one undisturbed controller call. -/
def visibleHistory (st : ChatState) (env : Env) (messageText : Option String) : List Message :=
  appendFold st.messages (handleSendMessage st env messageText).appends

/-- The reset-mid-flight schedule of spec §5/§8: the turn appends its user
turn synchronously, the reset runs while the model call is outstanding, and
the turn's remaining appends resolve against the post-reset cell. Returns
the history cell after the stale call resolves. -/
def resetMidFlightHistory (st : ChatState) (env : Env) (messageText : Option String)
    (resetSession : Except Unit ChatSession) : List Message :=
  let r := handleSendMessage st env messageText
  let afterUserTurn := appendFold st.messages (r.appends.take 1)
  let afterReset := handleResetChat { st with messages := afterUserTurn } resetSession
  appendFold afterReset.messages (r.appends.drop 1)

/-- Whether the guard at line 214 rejects the call as a no-op. -/
def guardRejects (st : ChatState) (messageText : Option String) : Bool :=
  jsTrim (resolveMessageText messageText st.input) == "" || st.isLoading

/-- Whether a system prompt is available for the turn (lines 236-258). -/
def promptAvailable (st : ChatState) (env : Env) : Bool :=
  match resolvePrompt st.chatSession env.latestPrompt with
  | Except.ok _ => true
  | Except.error _ => false

/-- The content parts of the first candidate of the first model response
(empty when the call rejected or the response carries no candidate). -/
def firstCandidateParts (env : Env) : List Part :=
  match env.firstModel with
  | Except.ok result =>
    match result.response with
    | some resp =>
      match resp.candidates with
      | some (c :: _) => (c.content.bind Content.parts).getD []
      | some [] => []
      | none => []
    | none => []
  | Except.error _ => []

/-- Whether the first model response carries a recognized
`search_purchase_orders` function call. -/
def recognizedSome (env : Env) : Bool :=
  (findRecognizedCall (firstCandidateParts env)).isSome

/-- Whether the search collaborator call resolves. -/
def searchOk (env : Env) : Bool :=
  match env.search with
  | Except.ok _ => true
  | Except.error _ => false

/-- Whether the follow-up model call resolves but carries no candidate
content (the unhandled case of the guard at line 375). -/
def followUpContentMissing (env : Env) : Bool :=
  match env.followUp with
  | Except.ok r =>
    (((r.response.bind GenerateContentResponse.candidates).bind List.head?).bind
      Candidate.content).isNone
  | Except.error _ => false

/-- Whether the turn takes the degenerate path: a recognized tool round-trip
whose search succeeds but whose follow-up response has no candidate content,
so the controller returns without appending a model turn. -/
def followUpDegenerate (st : ChatState) (env : Env) : Bool :=
  promptAvailable st env && recognizedSome env && searchOk env &&
    followUpContentMissing env

/-- A source with a truthy `uri` (present and non-empty), as required by the
guard at PropertyManagerChat.tsx:88. -/
def usableUri (s : CitationSource) : Option String :=
  match s.uri with
  | some u => if u == "" then none else some u
  | none => none

/-- The markdown source line pushed at PropertyManagerChat.tsx:90. -/
def mkSourceLine (n : Nat) (description : String) (uri : String) : String :=
  "[Source " ++ toString n ++ ": " ++ description ++ "](" ++ uri ++ ")"

/-- The loop body of `processTextWithCitations` (lines 85-94): walk the
sources, skipping those without a truthy `uri` or whose `uri` was already
seen; a kept source is labelled by its title when the title is truthy and
non-blank after trim, by its `uri` otherwise, and numbered sequentially. -/
def citationLoop : List CitationSource → List String → Nat → List String
  | [], _, _ => []
  | s :: rest, seenUris, n =>
    match s.uri with
    | some u =>
      if u != "" && !(seenUris.contains u) then
        let linkDescription :=
          match s.title with
          | some t => if t != "" && jsTrim t != "" then t else u
          | none => u
        mkSourceLine n linkDescription u :: citationLoop rest (u :: seenUris) (n + 1)
      else citationLoop rest seenUris n
    | none => citationLoop rest seenUris n

/-- Embedding of `processTextWithCitations` (PropertyManagerChat.tsx:80-98):
returns the unchanged text together with the formatted source lines. -/
def processTextWithCitations (text : String)
    (citationSources : Option (List CitationSource)) : String × List String :=
  let originalText := text
  let formattedSources : List String :=
    match citationSources with
    | some sources => if 0 < sources.length then citationLoop sources [] 1 else []
    | none => []
  (originalText, formattedSources)

/-- Specification-side label rule: a source is labelled by its title when the
title is present and non-blank, and by its URI otherwise. -/
def specLabel (s : CitationSource) (u : String) : String :=
  match s.title with
  | some t => if t != "" && jsTrim t != "" then t else u
  | none => u

/-- Specification-side projection of a source to its (URI, label) pair;
sources without a usable URI are dropped. -/
def cleanSource (s : CitationSource) : Option (String × String) :=
  match usableUri s with
  | some u => some (u, specLabel s u)
  | none => none

/-- Specification-side deduplication by URI, first occurrence wins: keep the
head and drop every later pair with the same URI before recursing. -/
def dedupByKey : List (String × String) → List (String × String)
  | [] => []
  | p :: rest => p :: dedupByKey (rest.filter fun q => q.1 != p.1)
termination_by l => l.length
decreasing_by
  simp only [List.length_cons]
  exact Nat.lt_succ_of_le (List.length_filter_le _ _)

/-- Specification-side numbering of the deduplicated (URI, label) pairs. -/
def numberFrom (n : Nat) : List (String × String) → List String
  | [] => []
  | p :: rest => mkSourceLine n p.2 p.1 :: numberFrom (n + 1) rest

/-- Specification-side reading of the citation claim: drop sources without a
usable URI, deduplicate by URI keeping first occurrences in order, label each
kept source by title or URI, number from 1. -/
def specFormattedSources (sources : List CitationSource) : List String :=
  numberFrom 1 (dedupByKey (sources.filterMap cleanSource))

/-! Concrete scenario material used by the evaluation theorems. -/

/-- A state with an initialized session and telemetry session. -/
def baseState : ChatState :=
  { messages := [], input := "", isLoading := false
  , chatSession := some { fullContext := "You are a property management assistant." }
  , ciSessionId := some ("ci-session-1"), userUid := "user-1" }

/-- A model part carrying a recognized `search_purchase_orders` call. -/
def searchCallPart : Part :=
  { functionCall := some
      { name := "search_purchase_orders"
      , args := { supplierName := some ("Huolto-Karhu") } } }

/-- A resolved model response with one candidate carrying the given parts. -/
def singleCandidateResult (parts : List Part) : GenerateContentResult :=
  { response := some { candidates := some [{ content := some { parts := some parts } }] } }

/-- Baseline oracle: plain text first response, everything resolves. -/
def envBase : Env :=
  { ciSession := Except.ok ("ci-session-new")
  , latestPrompt := Except.ok none
  , firstModel := Except.ok (singleCandidateResult [textPart ("Hello")])
  , aiRequestId := "req-1"
  , search := Except.ok
      { records := [[("Supplier", "Huolto-Karhu")]], totalCount := 1, processingTimeMs := 7 }
  , followUp := Except.ok (singleCandidateResult [textPart ("Final answer")])
  , telemetryFails := [] }

/-- Oracle for a tool round-trip whose follow-up model call resolves with an
empty candidate list (for example a safety-blocked follow-up response). -/
def envDegenerateFollowUp : Env :=
  { envBase with
    firstModel := Except.ok (singleCandidateResult [searchCallPart])
  , followUp := Except.ok { response := some { candidates := some [] } } }

/-- Oracle for a tool round-trip whose search collaborator call rejects. -/
def envSearchFailure : Env :=
  { envBase with
    firstModel := Except.ok (singleCandidateResult [searchCallPart])
  , search := Except.error ("ERP data not loaded") }

/-- Oracle for a successful tool round-trip. -/
def envToolRoundTrip : Env :=
  { envBase with firstModel := Except.ok (singleCandidateResult [searchCallPart]) }

/-- Oracle whose first response carries an unrecognized function call ahead
of a recognized `search_purchase_orders` call. -/
def envMixedCalls : Env :=
  { envBase with
    firstModel := Except.ok (singleCandidateResult
      [{ functionCall := some { name := "lookup_invoices", args := {} } }, searchCallPart]) }

/-- A state with no initialized session (and `envBase` offers no stored
prompt), so the turn throws the configuration error of line 256. -/
def noPromptState : ChatState := { baseState with chatSession := none }

/-! Theorems for the specification claims. -/

/-- C1: evidence against the claim that a completed turn always ends with a
terminal model turn. On a turn whose first model response carries a
recognized `search_purchase_orders` call, whose search succeeds, and whose
follow-up model call resolves with an empty candidate list, the guard at
PropertyManagerChat.tsx:375 has no else branch and the controller returns at
line 401: the completed turn appends only the user turn, no model turn and no
generic error turn, so history ends in a user turn. -/
theorem C1_completed_turn_without_terminal_model_turn :
    (handleSendMessage baseState envDegenerateFollowUp (some ("find orders"))).appends
      = [mkUserMessage ("find orders")]
    ∧ (handleSendMessage baseState envDegenerateFollowUp (some ("find orders"))).isLoadingAfter
      = false := by
  constructor <;> rfl

/-- C2 counterexample: the same degenerate follow-up makes the completed turn
grow visible history by exactly 1 entry, not 2, refuting the claim that every
completed non-empty turn grows history by exactly 2 entries. -/
theorem C2_growth_can_be_one :
    (handleSendMessage baseState envDegenerateFollowUp (some ("show orders"))).appends.length = 1
    ∧ (decide ((handleSendMessage baseState envDegenerateFollowUp
        (some ("show orders"))).appends.length = 2)) = false := by
  constructor
  · rfl
  · decide

/-- C3 counterexample: in a tool round-trip both model requests are issued
through the handle built at lines 260-266, so the second request carries the
`search_purchase_orders` tool schema, refuting the claim that the second
invocation is made without the tool schema attached. -/
theorem C3_second_request_carries_tool_schema :
    ((handleSendMessage baseState envToolRoundTrip (some ("search now"))).modelRequests.map
        ModelRequest.tools) = [[searchERPFunction], [searchERPFunction]]
    ∧ (decide (((handleSendMessage baseState envToolRoundTrip
        (some ("search now"))).modelRequests.get? 1).map ModelRequest.tools = some [])) = false := by
  constructor
  · rfl
  · decide

/-- C4: evidence that a failing search does not produce the documented error
handling. When the search collaborator rejects, the catch block at line 402
reads `aiRequestId`, which is declared inside the try block (line 291) and
out of scope there, so a ReferenceError reaches the outer handler: the turn
appends the generic error turn instead of the "encountered an error" message,
no `function_call_error` telemetry event is written, and no second model
invocation occurs. -/
theorem C4_search_failure_yields_generic_error_and_no_error_event :
    (handleSendMessage baseState envSearchFailure (some ("find orders"))).appends
      = [mkUserMessage ("find orders"), genericErrorMessage]
    ∧ ((handleSendMessage baseState envSearchFailure (some ("find orders"))).telemetry.all
        fun ev => !(TelemetryEvent.isFunctionCallError ev)) = true
    ∧ (handleSendMessage baseState envSearchFailure (some ("find orders"))).modelRequests.length
      = 1 := by
  refine ⟨rfl, rfl, rfl⟩

/-- C6: evidence that a stale in-flight result is not discarded by a reset.
The turn is issued, the reset clears the history to `[]` while the model call
is outstanding, and when the stale call resolves its functional update
`setMessages(prev => [...prev, modelTurn])` appends the stale model turn to
the post-reset cell: the post-reset history equals exactly the stale model
turn, which the claim says must never appear there. -/
theorem C6_stale_result_appended_after_reset :
    resetMidFlightHistory baseState envBase (some ("hello")) (Except.ok { fullContext := "fresh" })
      = [{ role := Role.model, parts := [textPart ("Hello")] }]
    ∧ (handleResetChat baseState (Except.ok { fullContext := "fresh" })).messages = [] := by
  constructor <;> rfl

/-- C9 counterexample: with no session context and no stored prompt the
controller throws the configuration error of line 256 before any model call,
yet the turn is processed (user turn plus generic error turn are appended):
a completed turn with 0 model-collaborator invocations, refuting "exactly 1
or 2 model-collaborator invocations per turn". -/
theorem C9_processed_turn_with_zero_model_invocations :
    (handleSendMessage noPromptState envBase (some ("hi there"))).modelRequests.length = 0
    ∧ (handleSendMessage noPromptState envBase (some ("hi there"))).appends.map Message.role
      = [Role.user, Role.model]
    ∧ (decide ((handleSendMessage noPromptState envBase (some ("hi there"))).modelRequests.length = 1
        ∨ (handleSendMessage noPromptState envBase (some ("hi there"))).modelRequests.length = 2))
      = false := by
  refine ⟨rfl, rfl, by decide⟩

/-- C10 counterexample: a first response whose content parts hold an
unrecognized function call followed by a recognized `search_purchase_orders`
call satisfies the claim's antecedent (it contains a function-call part
naming another function), yet the scan at lines 283-433 skips only the
unrecognized part and still executes the search: the search collaborator is
invoked once, not zero times. -/
theorem C10_mixed_parts_still_search :
    (handleSendMessage baseState envMixedCalls (some ("check invoices"))).searchRequests.length = 1
    ∧ (decide ((handleSendMessage baseState envMixedCalls
        (some ("check invoices"))).searchRequests.length = 0)) = false := by
  constructor
  · rfl
  · decide

/-- C7: for every input that is empty or whitespace-only after trimming, and
for every call made while a turn is in flight, the controller is a no-op. -/
theorem C7_guard_is_noop (st : ChatState) (env : Env) (messageText : Option String)
    (h : jsTrim (resolveMessageText messageText st.input) = "" ∨ st.isLoading = true) :
    handleSendMessage st env messageText = noopResult st := by
  unfold handleSendMessage
  have hc : (jsTrim (resolveMessageText messageText st.input) == "" || st.isLoading) = true := by
    rcases h with h | h
    · simp [h]
    · simp [h]
  simp [hc]

/-- C7 witness: whitespace-only input on the base state is rejected. -/
theorem C7_guard_is_noop_witness :
    jsTrim (resolveMessageText (some ("   ")) baseState.input) = ""
    ∧ handleSendMessage baseState envBase (some ("   ")) = noopResult baseState := by
  refine ⟨by decide, C7_guard_is_noop baseState envBase (some ("   ")) (Or.inl (by decide))⟩

/-- C5: for every turn, every pattern of telemetry write failures leaves the
appended turns, the model and search requests, the controller completion
(loading flag cleared) and the other state cells exactly as under any other
failure pattern: the visible conversation and the telemetry log are
independent failure domains. The sink is spec-modelled (`persistEvents`): per
the spec a failed write is logged and dropped, never raised to the caller. -/
theorem C5_telemetry_failures_do_not_affect_turn (st : ChatState) (env : Env)
    (messageText : Option String) (fails fails' : List Bool) :
    (handleSendMessage st { env with telemetryFails := fails } messageText).appends
      = (handleSendMessage st { env with telemetryFails := fails' } messageText).appends
    ∧ (handleSendMessage st { env with telemetryFails := fails } messageText).modelRequests
      = (handleSendMessage st { env with telemetryFails := fails' } messageText).modelRequests
    ∧ (handleSendMessage st { env with telemetryFails := fails } messageText).searchRequests
      = (handleSendMessage st { env with telemetryFails := fails' } messageText).searchRequests
    ∧ (handleSendMessage st { env with telemetryFails := fails } messageText).inputAfter
      = (handleSendMessage st { env with telemetryFails := fails' } messageText).inputAfter
    ∧ (handleSendMessage st { env with telemetryFails := fails } messageText).isLoadingAfter
      = (handleSendMessage st { env with telemetryFails := fails' } messageText).isLoadingAfter
    ∧ (handleSendMessage st { env with telemetryFails := fails } messageText).ciSessionIdAfter
      = (handleSendMessage st { env with telemetryFails := fails' } messageText).ciSessionIdAfter := by
  unfold handleSendMessage
  by_cases hc : (jsTrim (resolveMessageText messageText st.input) == "" || st.isLoading) = true
  · simp [hc]
  · simp [hc]


/-- Helper: the functional-append semantics reduces to plain list append when
no other update interleaves between the appends of one turn. -/
theorem appendFold_eq_append (l : List Message) : ∀ cell, appendFold cell l = cell ++ l := by
  induction l with
  | nil => intro cell; simp [appendFold]
  | cons m rest ih =>
    intro cell
    have h0 : appendFold cell (m :: rest) = appendFold (cell ++ [m]) rest := rfl
    rw [h0, ih (cell ++ [m]), List.append_assoc]
    rfl

/-- C2 amended: a completed non-rejected turn appends exactly one user turn
followed by exactly one model turn — through the plain path, a successful
tool round-trip, and every error path — except when the tool round-trip
succeeds but the follow-up model response carries no candidate content, in
which case only the user turn is appended. The intermediate function-call
turn and the synthetic function-result turn are sent only inside the second
model request and are never among the appended turns. -/
theorem C2_turn_growth_characterization (st : ChatState) (env : Env) (mt : Option String) :
    (handleSendMessage st env mt).appends.map Message.role =
      (if guardRejects st mt then []
       else if followUpDegenerate st env then [Role.user]
       else [Role.user, Role.model]) := by
  unfold handleSendMessage turnBody roundTrip plainOut guardRejects followUpDegenerate promptAvailable recognizedSome searchOk followUpContentMissing firstCandidateParts
  repeat' split <;> simp_all [mkUserMessage, genericErrorMessage, findRecognizedCall, noopResult]
  all_goals
    rename_i heq h
    rcases Option.bind_eq_some.mp heq with ⟨a, ha, hc⟩
    rw [h a ha] at hc
    exact Option.noConfusion hc

/-- C3 amended: every model request of a turn — the first call and the
follow-up call of a tool round-trip alike — carries the
`search_purchase_orders` tool schema, because both requests are issued
through the handle built with `tools` at lines 260-266; nevertheless at most
one search-collaborator invocation happens per turn, because the follow-up
response is appended without any function-call scan. -/
theorem C3_tool_schema_on_every_request (st : ChatState) (env : Env) (mt : Option String) :
    ((handleSendMessage st env mt).modelRequests.all fun r => r.tools == [searchERPFunction]) = true
    ∧ (handleSendMessage st env mt).searchRequests.length ≤ 1 := by
  unfold handleSendMessage turnBody roundTrip plainOut
  repeat' split
  all_goals try simp_all [generateContentRequest, chatModel, noopResult]
  all_goals try (split <;> simp_all)

/-- C9 amended: per processed turn there are exactly 1 or 2 model-collaborator
invocations when a system prompt is available — 2 exactly when a recognized
function call is returned and the search collaborator call is issued and
resolves — but 0 when no system prompt is configured (the turn still
completes with a configuration-error turn); there are 0 or 1
search-collaborator invocations (1 exactly when a recognized function call is
returned with a prompt available); and the history mutation of a turn is
append-only. -/
theorem C9_invocation_counts_characterization (st : ChatState) (env : Env) (mt : Option String) :
    (handleSendMessage st env mt).modelRequests.length =
      (if guardRejects st mt then 0
       else if !promptAvailable st env then 0
       else if recognizedSome env && searchOk env then 2 else 1)
    ∧ (handleSendMessage st env mt).searchRequests.length =
      (if guardRejects st mt || !promptAvailable st env then 0
       else if recognizedSome env then 1 else 0)
    ∧ visibleHistory st env mt = st.messages ++ (handleSendMessage st env mt).appends := by
  refine ⟨?_, ?_, appendFold_eq_append _ _⟩
  · unfold handleSendMessage turnBody roundTrip plainOut
    repeat' split
    all_goals try simp_all [guardRejects, promptAvailable, recognizedSome, searchOk,
      firstCandidateParts, findRecognizedCall, noopResult]
  · unfold handleSendMessage turnBody roundTrip plainOut
    repeat' split
    all_goals try simp_all [guardRejects, promptAvailable, recognizedSome,
      firstCandidateParts, findRecognizedCall, noopResult]
    all_goals try (split <;> simp_all)

/-- C10 amended: whenever the first model response carries no function-call
part naming `search_purchase_orders` (in particular when its function-call
parts all name other functions), the search collaborator is never invoked, no
second model invocation occurs, and the turn falls through to the
plain-response path, completing with the user turn and one model turn. -/
theorem C10_unrecognized_calls_fall_through (st : ChatState) (env : Env) (mt : Option String)
    (h : findRecognizedCall (firstCandidateParts env) = none) :
    (handleSendMessage st env mt).searchRequests = []
    ∧ (handleSendMessage st env mt).modelRequests.length ≤ 1
    ∧ (handleSendMessage st env mt).appends.map Message.role =
        (if guardRejects st mt then [] else [Role.user, Role.model]) := by
  unfold firstCandidateParts at h
  unfold handleSendMessage turnBody roundTrip plainOut guardRejects
  repeat' split
  all_goals try simp_all [mkUserMessage, genericErrorMessage, noopResult]

/-- Oracle whose first response carries only a function call naming another
function, used to witness the fall-through theorem. -/
def envOtherCallOnly : Env :=
  { envBase with
    firstModel := Except.ok (singleCandidateResult
      [{ functionCall := some { name := "export_report", args := {} } }]) }

/-- C10 witness: a response carrying only an `export_report` call satisfies
the hypothesis and the turn performs no search and completes as a plain
response. -/
theorem C10_unrecognized_calls_fall_through_witness :
    findRecognizedCall (firstCandidateParts envOtherCallOnly) = none
    ∧ ((handleSendMessage baseState envOtherCallOnly (some ("export it"))).searchRequests = []
       ∧ (handleSendMessage baseState envOtherCallOnly (some ("export it"))).modelRequests.length ≤ 1
       ∧ (handleSendMessage baseState envOtherCallOnly (some ("export it"))).appends.map Message.role =
          (if guardRejects baseState (some ("export it")) then [] else [Role.user, Role.model])) :=
  ⟨rfl, C10_unrecognized_calls_fall_through baseState envOtherCallOnly (some ("export it")) rfl⟩

/-- Helper: Bool equality on strings agrees with decidable propositional
equality. -/
theorem stringBeqDecide (q u : String) : (q == u) = decide (q = u) := by
  cases hq : q == u
  · have hne : ¬ q = u := by simpa using hq
    simp [hne]
  · have he : q = u := by simpa using hq
    simp [he]

/-- Helper: walking the sources with a seen-URI accumulator equals filtering
ahead: drop everything whose URI is in `seen`, then keep first occurrences. -/
theorem citationLoop_eq_spec (sources : List CitationSource) :
    ∀ (seen : List String) (n : Nat),
      citationLoop sources seen n =
        numberFrom n (dedupByKey ((sources.filterMap cleanSource).filter
          fun q => !(seen.contains q.1))) := by
  induction sources with
  | nil => intro seen n; simp [citationLoop, numberFrom, dedupByKey]
  | cons s rest ih =>
    intro seen n
    cases hu : s.uri with
    | none =>
      simp only [citationLoop, hu, List.filterMap_cons, cleanSource, usableUri]
      exact ih seen n
    | some u =>
      by_cases hu0 : u = ""
      · subst hu0
        simp only [citationLoop, hu, List.filterMap_cons, cleanSource, usableUri]
        simp only [bne_self_eq_false, Bool.false_and, if_false, if_pos rfl]
        exact ih seen n
      · have hub : (u == "") = false := by simp [hu0]
        have hclean : cleanSource s = some (u, specLabel s u) := by
          simp [cleanSource, usableUri, hu, hu0]
        by_cases hseen : u ∈ seen
        · have hc : seen.contains u = true := by
            simpa [List.elem_eq_mem] using hseen
          simp only [citationLoop, hu]
          rw [if_neg (by simp [bne, hub, hseen])]
          rw [ih seen n]
          simp only [List.filterMap_cons, hclean]
          congr 2
          rw [List.filter_cons]
          simp [hseen]
        · have hc : seen.contains u = false := by
            simpa [List.elem_eq_mem] using hseen
          have hfilter : ((rest.filterMap cleanSource).filter fun q => !((u :: seen).contains q.1))
              = (((rest.filterMap cleanSource).filter fun q => !(seen.contains q.1)).filter
                  fun q => q.1 != u) := by
            rw [List.filter_filter]
            congr 1
            funext q
            simp [List.contains_cons, bne, Bool.not_or, stringBeqDecide, Bool.and_comm]
          have hkeep : (((u, specLabel s u) ::
                (rest.filterMap cleanSource)).filter fun q => !(seen.contains q.1))
              = (u, specLabel s u) ::
                ((rest.filterMap cleanSource).filter fun q => !(seen.contains q.1)) := by
            rw [List.filter_cons]
            simp [hseen]
          simp only [citationLoop, hu]
          rw [if_pos (by simp [bne, hub, hseen])]
          rw [ih (u :: seen) (n + 1), hfilter]
          simp only [List.filterMap_cons, hclean, hkeep]
          rw [dedupByKey, numberFrom]
          congr 1

/-- C8: the formatting function preserves the text, deduplicates citation
sources by URI keeping the first occurrence display order, labels a source by
its title when present and non-blank and by its URI otherwise; in particular
the concrete list [(a, X), (a, Y), (b, no title)] yields exactly 2 entries
labelled X and b. -/
theorem C8_citation_dedup_first_occurrence_and_labels :
    (∀ (text : String) (sources : List CitationSource),
        processTextWithCitations text (some sources) = (text, specFormattedSources sources))
    ∧ (processTextWithCitations ("t") (some
        [{ uri := some ("a"), title := some ("X") }, { uri := some ("a"), title := some ("Y") },
         { uri := some ("b") }])).2 = ["[Source 1: X](a)", "[Source 2: b](b)"] := by
  constructor
  · intro text sources
    unfold processTextWithCitations specFormattedSources
    cases sources with
    | nil => simp [citationLoop, numberFrom, dedupByKey]
    | cons s rest =>
      simp only [List.length_cons]
      rw [if_pos (Nat.succ_pos _)]
      rw [citationLoop_eq_spec]
      congr 3
      simp [List.elem_eq_mem]
  · rfl

end Propertius
